import Mathlib

/-!
Shallow embedding of the outfit suggestion engine of `src/ml/outfit_suggester.py`
(class `OutfitSuggester`), restricted to the code paths exercised by
`suggest_outfit`: feature extraction (category, formality, seasonality, pattern,
fit), weather classification, occasion profiling, the two per-item scores, and
the selection of the final outfit.

Modelling conventions:
* Python floats are modelled as exact rationals (`ℚ`); every numeric constant of
  the source appears verbatim.
* `keyword in text` (Python substring test) is modelled by `is_sub`, list
  membership by `List.contains`.
* The TF-IDF vectorizers (`lowercase=True`, unigram analyzer) reduce, for the
  purpose of detecting which vocabulary entries occur, to: lowercase the text,
  split into whitespace tokens, and keep the vocabulary entries that occur as a
  token (multi-word vocabulary entries can never be produced by the unigram
  analyzer, and indeed never match).  `detect_vocab` implements exactly that,
  returning matches in vocabulary order as `np.where` does.
* The spaCy adjective lists are only ever consulted through tests of the form
  `adj in adjectives or adj in description`; since every extracted adjective is
  a token of the description, this is equivalent to the plain substring test
  `adj in description`, which is what the embedding uses.
* `pandas.sort_values` on the two keys `['category', 'overall_score']` performs
  an indirect stable sort (`numpy.lexsort`); it is modelled by the stable
  `List.mergeSort` under the corresponding total preorder. `Category.sortKey`
  realizes the ascending lexicographic order of the category strings.
-/

set_option maxRecDepth 100000

namespace OutfitSuggester

/-- Python substring test: `pat in s`. -/
def is_sub (pat s : String) : Bool := decide (pat.toList <:+: s.toList)

/-- Lowercasing (`str.lower`), written on the character list so that it is
kernel-computable. -/
def lowerStr (s : String) : String := String.mk (s.data.map Char.toLower)

/-- Whitespace tokenizer used to model both the unigram analyzer of the
vectorizers and `desc_lower.split()`; splits at each space character. -/
def words_aux : List Char → List Char → List String
  | [], cur => [String.mk cur.reverse]
  | c :: rest, cur =>
    if c = ' ' then String.mk cur.reverse :: words_aux rest []
    else words_aux rest (c :: cur)

/-- The whitespace tokens of a string. -/
def words (s : String) : List String := words_aux s.data []

/-- Vocabulary detection: which vocabulary entries occur as a token of the
lowercased text (in vocabulary order, as the vectorizers report them). -/
def detect_vocab (description : String) (vocab : List String) : List String :=
  vocab.filter (fun w => (words (lowerStr description)).contains w)

/-- Vocabulary of `_get_material_list`. -/
def material_vocab : List String :=
  ["cotton", "wool", "leather", "denim", "silk", "linen", "polyester",
   "nylon", "cashmere", "velvet", "suede", "corduroy", "fleece", "tweed",
   "jersey", "canvas", "chino", "flannel", "chenille", "satin", "viscose",
   "spandex", "rayon", "acrylic", "lyocell", "mohair", "merino", "angora",
   "modal", "twill", "chambray", "terry", "mesh", "sequin", "bamboo",
   "microfiber", "gabardine", "herringbone", "poplin", "organza", "taffeta",
   "fur", "faux fur", "sherpa", "crepe", "lamé", "oxford", "gore-tex"]

/-- Vocabulary of `_get_clothing_types`. -/
def type_vocab : List String :=
  ["t-shirt", "shirt", "blouse", "sweater", "sweatshirt", "hoodie",
   "polo", "tank", "turtleneck", "tunic", "button-down",
   "henley", "crop top", "camisole", "pullover", "jersey", "long sleeve",
   "short sleeve", "v-neck", "crew neck", "sleeveless", "top",
   "jeans", "pants", "trousers", "shorts", "skirt", "chinos", "leggings",
   "joggers", "sweatpants", "culottes", "capris", "jeggings", "cargo",
   "khakis", "slacks", "dress pants", "bermudas", "palazzo", "linen pants",
   "dress", "jumpsuit", "romper", "playsuit", "gown", "sundress", "maxi",
   "midi", "mini", "shift", "sheath", "a-line", "wrap", "slip dress",
   "jacket", "coat", "blazer", "parka", "windbreaker", "vest", "cardigan",
   "trench", "bomber", "denim jacket", "leather jacket", "puffer", "raincoat",
   "poncho", "peacoat", "overcoat", "anorak", "cape", "shrug",
   "shoes", "boots", "sneakers", "sandals", "loafers", "flats", "heels",
   "pumps", "wedges", "oxford shoes", "slippers", "mules", "espadrilles",
   "mocassins", "brogues", "ankle boots", "hiking boots", "slip-ons",
   "watch", "scarf", "tie", "belt", "hat", "gloves", "socks", "necklace",
   "earrings", "bracelet", "ring", "sunglasses", "bag", "purse", "handbag",
   "wallet", "backpack", "tote", "clutch", "headband", "beanie", "cap",
   "beret", "bowtie", "pocket square", "cufflinks", "anklet", "brooch"]

/-- Vocabulary of `_get_color_list`. -/
def color_vocab : List String :=
  ["red", "blue", "green", "yellow", "black", "white", "grey", "gray",
   "purple", "pink", "orange", "brown", "navy", "beige", "cream", "tan",
   "olive", "burgundy", "charcoal", "silver", "gold", "teal", "khaki",
   "maroon", "mustard", "coral", "mint", "turquoise", "indigo", "magenta",
   "lavender", "peach", "rust", "emerald", "ochre", "crimson", "azure",
   "lilac", "amber", "salmon", "slate", "mauve", "taupe", "cerulean",
   "ivory", "camel", "sage", "periwinkle", "plum", "cobalt", "fuchsia"]

/-- Clothing category values of the engine. -/
inductive Category where
  | top
  | bottom
  | one_piece
  | outerwear
  | footwear
  | accessory
deriving DecidableEq, Repr

/-- String name of a category, as used for the dictionary keys and the
placeholder messages of the Python code. -/
def Category.slotName : Category → String
  | .top => "top"
  | .bottom => "bottom"
  | .one_piece => "one_piece"
  | .outerwear => "outerwear"
  | .footwear => "footwear"
  | .accessory => "accessory"

/-- Rank of a category in the ascending lexicographic order of `slotName`
(accessory, bottom, footwear, one_piece, outerwear, top), which is the order
`sort_values` uses on the category string column. -/
def Category.sortKey : Category → ℕ
  | .accessory => 0
  | .bottom => 1
  | .footwear => 2
  | .one_piece => 3
  | .outerwear => 4
  | .top => 5

/-- The `category_mappings` dictionary of `_determine_category`, in insertion
order. -/
def category_mappings : List (Category × List String) :=
  [(.top,
    ["t-shirt", "shirt", "blouse", "sweater", "sweatshirt", "hoodie", "polo",
     "tank", "turtleneck", "cardigan", "tunic", "button-down", "henley",
     "crop top", "camisole", "pullover", "jersey", "top"]),
   (.bottom,
    ["jeans", "pants", "trousers", "shorts", "skirt", "chinos", "leggings",
     "joggers", "sweatpants", "culottes", "capris", "jeggings", "cargo",
     "khakis", "slacks", "dress pants", "bermudas", "palazzo", "linen pants"]),
   (.one_piece,
    ["dress", "jumpsuit", "romper", "playsuit", "gown", "sundress", "maxi",
     "midi", "mini", "shift", "sheath", "a-line", "wrap", "slip dress"]),
   (.outerwear,
    ["jacket", "coat", "blazer", "parka", "windbreaker", "vest",
     "trench", "bomber", "denim jacket", "leather jacket", "puffer", "raincoat",
     "poncho", "peacoat", "overcoat", "anorak", "cape", "shrug"]),
   (.footwear,
    ["shoes", "boots", "sneakers", "sandals", "loafers", "flats", "heels",
     "pumps", "wedges", "oxford shoes", "slippers", "mules", "espadrilles",
     "mocassins", "brogues", "ankle boots", "hiking boots", "slip-ons"]),
   (.accessory,
    ["watch", "scarf", "tie", "belt", "hat", "gloves", "socks", "necklace",
     "earrings", "bracelet", "ring", "sunglasses", "bag", "purse", "handbag",
     "wallet", "backpack", "tote", "clutch", "headband", "beanie", "cap",
     "beret", "bowtie", "pocket square", "cufflinks", "anklet", "brooch"])]

/-- All terms of `category_mappings` (used to state keyword hypotheses). -/
def all_category_terms : List String := category_mappings.flatMap Prod.snd

/-- Embedding of `_determine_category`: first match of a detected type name
against the category tables (with the cardigan special case), then a full-text
substring scan, then a scan for a term occurring inside one of the words of the
description, and finally default `accessory`. -/
def determine_category (description : String) (type_names : List String) : Category :=
  let dl := lowerStr description
  match category_mappings.find? (fun p => p.2.any (fun t => type_names.contains t)) with
  | some p =>
    if type_names.contains "cardigan" then
      if ["layer", "jacket", "coat", "outerwear"].any (fun t => is_sub t dl) then
        Category.outerwear
      else
        Category.top
    else p.1
  | none =>
  match category_mappings.find? (fun p => p.2.any (fun t => is_sub t dl)) with
  | some p => p.1
  | none =>
  match category_mappings.find? (fun p => p.2.any (fun t => (words dl).any (fun w => is_sub t w))) with
  | some p => p.1
  | none => Category.accessory

/-- Keyword-weight table folding shared by the formality tables: the Python
loop `for key, weight in table.items(): if test(key): score += weight`. -/
def add_weights (test : String → Bool) (table : List (String × ℚ)) (acc : ℚ) : ℚ :=
  table.foldl (fun a p => if test p.1 then a + p.2 else a) acc

/-- Keyword bump folding for the adjective lists of `_calculate_formality`:
each detected word adjusts the score by the fixed `delta`. -/
def adj_bump (test : String → Bool) (ws : List String) (delta acc : ℚ) : ℚ :=
  ws.foldl (fun a w => if test w then a + delta else a) acc

/-- The `formal_materials` table. -/
def formal_materials : List (String × ℚ) :=
  [("wool", 1.5), ("cashmere", 2.0), ("silk", 1.8), ("leather", 1.0),
   ("tweed", 1.5), ("linen", 0.8), ("velvet", 1.5), ("satin", 1.3)]

/-- The `casual_materials` table (negative weights, added as in the code). -/
def casual_materials : List (String × ℚ) :=
  [("cotton", -0.8), ("denim", -1.5), ("fleece", -1.8), ("jersey", -1.3),
   ("spandex", -1.2), ("polyester", -0.5), ("canvas", -1.0)]

/-- The `formal_types` table. -/
def formal_types : List (String × ℚ) :=
  [("suit", 3.0), ("blazer", 2.5), ("dress shirt", 2.0), ("oxford", 1.8),
   ("loafers", 1.5), ("dress", 1.8), ("slacks", 1.5), ("coat", 1.0),
   ("tie", 2.0), ("bow tie", 2.5), ("dress pants", 2.0), ("pumps", 1.8),
   ("heels", 1.5), ("gown", 3.0), ("tuxedo", 4.0)]

/-- The `casual_types` table. -/
def casual_types : List (String × ℚ) :=
  [("t-shirt", -1.5), ("hoodie", -2.0), ("sweatshirt", -1.8), ("jeans", -1.5),
   ("sneakers", -1.5), ("shorts", -2.0), ("flip-flops", -2.5), ("tank", -1.3),
   ("sandals", -1.0), ("sweatpants", -2.5), ("joggers", -2.0), ("beanie", -1.0)]

/-- The `formality_descriptors` table. -/
def formality_descriptors : List (String × ℚ) :=
  [("formal", 2.0), ("business", 1.8), ("professional", 1.5), ("elegant", 1.8),
   ("sophisticated", 1.5), ("dressy", 1.3), ("upscale", 1.8), ("evening", 1.5),
   ("fancy", 1.3), ("polished", 1.0), ("refined", 1.3), ("smart", 1.0)]

/-- The `casual_descriptors` table. -/
def casual_descriptors : List (String × ℚ) :=
  [("casual", -1.5), ("relaxed", -1.3), ("everyday", -1.0), ("laid-back", -1.5),
   ("comfortable", -0.8), ("cozy", -1.0), ("slouchy", -1.5), ("distressed", -1.3),
   ("worn-in", -1.0), ("sporty", -1.2), ("athleisure", -1.5), ("lounge", -1.8)]

/-- The `formal_adj` list. -/
def formal_adj : List String :=
  ["tailored", "structured", "pressed", "starched", "crisp"]

/-- The `casual_adj` list. -/
def casual_adj : List String :=
  ["baggy", "loose", "comfortable", "oversized", "distressed"]

/-- Embedding of `_calculate_formality`: the score starts at 5.0 and every
table is folded over in source order; material keys are tested by membership in
the detected materials, type keys by membership in the detected types or by
substring, descriptors and adjectives by substring (see the header note on the
adjective test).  The result is clamped to the range 1 to 10. -/
def calculate_formality (description : String) (materials types : List String) : ℚ :=
  let dl := lowerStr description
  let s : ℚ := 5.0
  let s := add_weights (fun m => materials.contains m) formal_materials s
  let s := add_weights (fun m => materials.contains m) casual_materials s
  let s := add_weights (fun t => types.contains t || is_sub t dl) formal_types s
  let s := add_weights (fun t => types.contains t || is_sub t dl) casual_types s
  let s := add_weights (fun d => is_sub d dl) formality_descriptors s
  let s := add_weights (fun d => is_sub d dl) casual_descriptors s
  let s := adj_bump (fun a => is_sub a dl) formal_adj 0.5 s
  let s := adj_bump (fun a => is_sub a dl) casual_adj (-0.5) s
  max 1 (min 10 s)

/-- The `patterns` table of `_extract_pattern`, in insertion order. -/
def patterns_table : List (String × List String) :=
  [("solid", ["solid", "plain", "basic", "single color", "one color"]),
   ("striped", ["stripe", "striped", "stripes", "pinstripe", "vertical stripe", "horizontal stripe"]),
   ("plaid", ["plaid", "tartan", "check", "checked", "checkered", "gingham"]),
   ("floral", ["floral", "flower", "flowers", "botanical", "rose", "daisy"]),
   ("polka dot", ["polka dot", "polka-dot", "dots", "spotted", "dot pattern"]),
   ("animal print", ["animal print", "leopard", "zebra", "cheetah", "snake", "python", "crocodile", "tiger"]),
   ("geometric", ["geometric", "triangle", "square", "diamond pattern", "hexagon", "chevron", "zigzag"]),
   ("print", ["print", "pattern", "graphic", "design", "logo", "motif"]),
   ("colorblock", ["colorblock", "color-block", "color block", "two-tone", "two tone"])]

/-- Embedding of `_extract_pattern`: first pattern whose keyword list has a
substring match, defaulting to solid. -/
def extract_pattern (description : String) : String :=
  let dl := lowerStr description
  match patterns_table.find? (fun p => p.2.any (fun k => is_sub k dl)) with
  | some p => p.1
  | none => "solid"

/-- The `fits` table of `_extract_fit`, in insertion order. -/
def fits_table : List (String × List String) :=
  [("slim", ["slim", "fitted", "tailored", "skinny", "tight", "form-fitting", "narrow"]),
   ("regular", ["regular", "classic", "standard", "straight", "normal"]),
   ("loose", ["loose", "relaxed", "oversized", "baggy", "wide", "boxy", "roomy"]),
   ("stretchy", ["stretchy", "stretch", "flexible", "elastic", "spandex"])]

/-- Embedding of `_extract_fit`: first fit whose keyword list has a substring
match, defaulting to regular. -/
def extract_fit (description : String) : String :=
  let dl := lowerStr description
  match fits_table.find? (fun p => p.2.any (fun k => is_sub k dl)) with
  | some p => p.1
  | none => "regular"

/-- Seasonality mapping over the four seasons (`_determine_seasonality`). -/
structure Seasonality where
  spring : ℚ
  summer : ℚ
  fall : ℚ
  winter : ℚ
deriving DecidableEq, Repr

/-- Sum of the four season values. -/
def Seasonality.total (s : Seasonality) : ℚ := s.spring + s.summer + s.fall + s.winter

/-- The `summer_materials` list of `_determine_seasonality`. -/
def summer_materials : List String := ["linen", "cotton", "chambray", "mesh", "chiffon", "rayon"]

/-- The `winter_materials` list. -/
def winter_materials : List String := ["wool", "cashmere", "flannel", "velvet", "fleece", "sherpa", "fur", "suede"]

/-- The `spring_materials` list. -/
def spring_materials : List String := ["cotton", "linen", "light wool", "poplin", "silk"]

/-- The `fall_materials` list. -/
def fall_materials : List String := ["corduroy", "tweed", "leather", "denim", "suede", "flannel"]

/-- Body of the per-material loop of `_determine_seasonality`: the four
independent membership tests, each nudging the season values. -/
def season_mat_step (s : Seasonality) (m : String) : Seasonality :=
  let s := if summer_materials.contains m then
    { s with summer := s.summer + 0.15, winter := s.winter - 0.1 } else s
  let s := if winter_materials.contains m then
    { s with winter := s.winter + 0.15, summer := s.summer - 0.1 } else s
  let s := if spring_materials.contains m then
    { s with spring := s.spring + 0.1 } else s
  if fall_materials.contains m then { s with fall := s.fall + 0.1 } else s

/-- The `summer_items` list. -/
def summer_items : List String :=
  ["shorts", "sandals", "tank", "sleeveless", "short sleeve", "sundress", "swimwear"]

/-- The `winter_items` list. -/
def winter_items : List String :=
  ["sweater", "coat", "boots", "gloves", "scarf", "parka", "beanie", "turtleneck"]

/-- The `spring_items` list. -/
def spring_items : List String :=
  ["light jacket", "cardigan", "rain jacket", "windbreaker", "loafers", "flats"]

/-- The `fall_items` list. -/
def fall_items : List String :=
  ["jacket", "light sweater", "blazer", "hoodie", "ankle boots", "vest"]

/-- The `summer_descriptors` list. -/
def summer_descriptors : List String :=
  ["lightweight", "breathable", "cooling", "airy", "tropical"]

/-- The `winter_descriptors` list. -/
def winter_descriptors : List String :=
  ["warm", "insulated", "heavy", "thick", "cozy", "thermal", "heated"]

/-- The `spring_descriptors` list. -/
def spring_descriptors : List String :=
  ["light", "pastel", "floral", "bright", "rain-resistant"]

/-- The `fall_descriptors` list. -/
def fall_descriptors : List String :=
  ["layering", "earth tone", "rich", "mid-weight", "rust"]

/-- The `color_seasonality` lists. -/
def spring_colors : List String :=
  ["pastel", "mint", "peach", "pink", "light blue", "yellow", "lavender"]

/-- Summer seasonal colors. -/
def summer_colors : List String :=
  ["bright", "neon", "coral", "turquoise", "white", "yellow", "hot pink", "aqua"]

/-- Fall seasonal colors. -/
def fall_colors : List String :=
  ["burgundy", "mustard", "olive", "rust", "brown", "orange", "forest green", "mauve"]

/-- Winter seasonal colors. -/
def winter_colors : List String :=
  ["black", "navy", "dark green", "burgundy", "charcoal", "silver", "white", "red"]

/-- All loops of `_determine_seasonality` before the final normalization, in
source order.  The `types` argument is received (as in the source signature)
but, exactly as in the source, never read: the seasonal type checks test the
full description. -/
def season_raw (description : String) (materials types : List String) : Seasonality :=
  let dl := lowerStr description
  let s : Seasonality := ⟨0.25, 0.25, 0.25, 0.25⟩
  let s := materials.foldl season_mat_step s
  let s := summer_items.foldl (fun s it => if is_sub it dl then
    { s with summer := s.summer + 0.2, winter := s.winter - 0.15 } else s) s
  let s := winter_items.foldl (fun s it => if is_sub it dl then
    { s with winter := s.winter + 0.2, summer := s.summer - 0.15 } else s) s
  let s := spring_items.foldl (fun s it => if is_sub it dl then
    { s with spring := s.spring + 0.15 } else s) s
  let s := fall_items.foldl (fun s it => if is_sub it dl then
    { s with fall := s.fall + 0.15 } else s) s
  let s := summer_descriptors.foldl (fun s d => if is_sub d dl then
    { s with summer := s.summer + 0.15, winter := s.winter - 0.1 } else s) s
  let s := winter_descriptors.foldl (fun s d => if is_sub d dl then
    { s with winter := s.winter + 0.15, summer := s.summer - 0.1 } else s) s
  let s := spring_descriptors.foldl (fun s d => if is_sub d dl then
    { s with spring := s.spring + 0.1 } else s) s
  let s := fall_descriptors.foldl (fun s d => if is_sub d dl then
    { s with fall := s.fall + 0.1 } else s) s
  let s := if is_sub "spring" dl then { s with spring := s.spring + 0.3 } else s
  let s := if is_sub "summer" dl then { s with summer := s.summer + 0.3 } else s
  let s := if is_sub "fall" dl then { s with fall := s.fall + 0.3 } else s
  let s := if is_sub "winter" dl then { s with winter := s.winter + 0.3 } else s
  let s := spring_colors.foldl (fun s c => if is_sub c dl then
    { s with spring := s.spring + 0.08 } else s) s
  let s := summer_colors.foldl (fun s c => if is_sub c dl then
    { s with summer := s.summer + 0.08 } else s) s
  let s := fall_colors.foldl (fun s c => if is_sub c dl then
    { s with fall := s.fall + 0.08 } else s) s
  winter_colors.foldl (fun s c => if is_sub c dl then
    { s with winter := s.winter + 0.08 } else s) s

/-- Embedding of `_determine_seasonality`: the accumulation loops of
`season_raw` followed by the final normalization step, which divides each value
by the total and then clamps it from below at 0.05. -/
def determine_seasonality (description : String) (materials types : List String) : Seasonality :=
  let s := season_raw description materials types
  ⟨max 0.05 (s.spring / s.total), max 0.05 (s.summer / s.total),
   max 0.05 (s.fall / s.total), max 0.05 (s.winter / s.total)⟩

/-- Every iteration of every accumulation loop of `_determine_seasonality` has
a nonnegative net effect on the total, so a fold can only grow the total. -/
theorem foldl_total_le {β : Type} (f : Seasonality → β → Seasonality)
    (hf : ∀ s b, s.total ≤ (f s b).total) :
    ∀ (l : List β) (s : Seasonality), s.total ≤ (l.foldl f s).total := by
  intro l
  induction l with
  | nil => intro s; exact le_refl _
  | cons b t ih => intro s; exact le_trans (hf s b) (ih (f s b))

/-- The material step of the seasonality loop does not decrease the total. -/
theorem season_mat_step_total (s : Seasonality) (m : String) :
    s.total ≤ (season_mat_step s m).total := by
  unfold season_mat_step
  split_ifs <;> simp only [Seasonality.total] <;> linarith

/-- A conditional season bump never decreases the total when the updated
record has a total at least as large. -/
theorem ite_total_le (c : Prop) [Decidable c] (s t : Seasonality)
    (h : s.total ≤ t.total) : s.total ≤ (if c then t else s).total := by
  split_ifs with hc
  · exact h
  · exact le_refl _

/-- The raw (pre-normalization) seasonality total starts at 1 and never
decreases: every keyword hit adds more than it subtracts. -/
theorem season_raw_total (description : String) (materials types : List String) :
    1 ≤ (season_raw description materials types).total := by
  simp only [season_raw]
  refine le_trans ?_ (foldl_total_le _ (fun s b => by
    refine ite_total_le _ _ _ ?_; simp only [Seasonality.total]; linarith) winter_colors _)
  refine le_trans ?_ (foldl_total_le _ (fun s b => by
    refine ite_total_le _ _ _ ?_; simp only [Seasonality.total]; linarith) fall_colors _)
  refine le_trans ?_ (foldl_total_le _ (fun s b => by
    refine ite_total_le _ _ _ ?_; simp only [Seasonality.total]; linarith) summer_colors _)
  refine le_trans ?_ (foldl_total_le _ (fun s b => by
    refine ite_total_le _ _ _ ?_; simp only [Seasonality.total]; linarith) spring_colors _)
  refine le_trans ?_ (ite_total_le _ _ _ (by simp only [Seasonality.total]; linarith))
  refine le_trans ?_ (ite_total_le _ _ _ (by simp only [Seasonality.total]; linarith))
  refine le_trans ?_ (ite_total_le _ _ _ (by simp only [Seasonality.total]; linarith))
  refine le_trans ?_ (ite_total_le _ _ _ (by simp only [Seasonality.total]; linarith))
  refine le_trans ?_ (foldl_total_le _ (fun s b => by
    refine ite_total_le _ _ _ ?_; simp only [Seasonality.total]; linarith) fall_descriptors _)
  refine le_trans ?_ (foldl_total_le _ (fun s b => by
    refine ite_total_le _ _ _ ?_; simp only [Seasonality.total]; linarith) spring_descriptors _)
  refine le_trans ?_ (foldl_total_le _ (fun s b => by
    refine ite_total_le _ _ _ ?_; simp only [Seasonality.total]; linarith) winter_descriptors _)
  refine le_trans ?_ (foldl_total_le _ (fun s b => by
    refine ite_total_le _ _ _ ?_; simp only [Seasonality.total]; linarith) summer_descriptors _)
  refine le_trans ?_ (foldl_total_le _ (fun s b => by
    refine ite_total_le _ _ _ ?_; simp only [Seasonality.total]; linarith) fall_items _)
  refine le_trans ?_ (foldl_total_le _ (fun s b => by
    refine ite_total_le _ _ _ ?_; simp only [Seasonality.total]; linarith) spring_items _)
  refine le_trans ?_ (foldl_total_le _ (fun s b => by
    refine ite_total_le _ _ _ ?_; simp only [Seasonality.total]; linarith) winter_items _)
  refine le_trans ?_ (foldl_total_le _ (fun s b => by
    refine ite_total_le _ _ _ ?_; simp only [Seasonality.total]; linarith) summer_items _)
  refine le_trans ?_ (foldl_total_le _ season_mat_step_total materials _)
  norm_num [Seasonality.total]

/-- Weather profile over the five categories (`_categorize_weather`). -/
structure WeatherScores where
  hot : ℚ
  cold : ℚ
  wet : ℚ
  windy : ℚ
  mild : ℚ
deriving DecidableEq, Repr

/-- Sum of the five weather values. -/
def WeatherScores.total (s : WeatherScores) : ℚ :=
  s.hot + s.cold + s.wet + s.windy + s.mild

/-- The `weather_categories['hot']` keyword list. -/
def hot_keywords : List String :=
  ["sunny", "hot", "warm", "clear", "heat", "heatwave", "scorching", "tropical"]

/-- The `weather_categories['cold']` keyword list. -/
def cold_keywords : List String :=
  ["cold", "freezing", "chilly", "snow", "icy", "frost", "frigid", "wintry"]

/-- The `weather_categories['wet']` keyword list. -/
def wet_keywords : List String :=
  ["rain", "rainy", "shower", "drizzle", "thunderstorm", "downpour", "humid", "moisture"]

/-- The `weather_categories['windy']` keyword list. -/
def windy_keywords : List String :=
  ["windy", "breezy", "gusty", "gale", "draft", "stormy", "cyclone"]

/-- The `weather_categories['mild']` keyword list. -/
def mild_keywords : List String :=
  ["mild", "pleasant", "partly cloudy", "cloudy", "moderate", "temperate", "fair"]

/-- Description keyword score of one weather category: each keyword found in
the lowercased description contributes 0.8 when it is among the first three of
its list (the primary keywords) and 0.5 otherwise. -/
def kw_score (dl : String) (kws : List String) : ℚ :=
  (kws.enum.map (fun p =>
    if is_sub p.2 dl then (if p.1 < 3 then (0.8 : ℚ) else 0.5) else 0)).sum

/-- Keyword scores of all five categories. -/
def weather_keyword_scores (dl : String) : WeatherScores :=
  ⟨kw_score dl hot_keywords, kw_score dl cold_keywords, kw_score dl wet_keywords,
   kw_score dl windy_keywords, kw_score dl mild_keywords⟩

/-- The temperature-band branch of `_categorize_weather`. -/
def apply_temperature (temperature : ℚ) (s : WeatherScores) : WeatherScores :=
  if temperature > 30 then { s with hot := s.hot + 1.0, cold := 0 }
  else if temperature > 25 then { s with hot := s.hot + 0.8, mild := s.mild + 0.2, cold := 0 }
  else if temperature > 20 then { s with hot := s.hot + 0.5, mild := s.mild + 0.5, cold := 0 }
  else if temperature > 15 then
    { s with mild := s.mild + 0.8, hot := s.hot + 0.2, cold := s.cold + 0.1 }
  else if temperature > 10 then { s with mild := s.mild + 0.6, cold := s.cold + 0.4 }
  else if temperature > 5 then { s with cold := s.cold + 0.7, mild := s.mild + 0.3, hot := 0 }
  else if temperature > 0 then { s with cold := s.cold + 0.9, mild := s.mild + 0.1, hot := 0 }
  else { s with cold := s.cold + 1.0, mild := 0, hot := 0 }

/-- The `precipitation_terms` list. -/
def precipitation_terms : List String :=
  ["rain", "snow", "drizzle", "shower", "precipitation", "wet", "damp", "thunderstorm"]

/-- The `wind_terms` list. -/
def wind_terms : List String :=
  ["wind", "breezy", "gusty", "blustery", "gale", "drafty"]

/-- The precipitation special case of `_categorize_weather`. -/
def apply_precipitation (dl : String) (s : WeatherScores) : WeatherScores :=
  if precipitation_terms.any (fun t => is_sub t dl) then
    let s := { s with wet := s.wet + 0.8 }
    if is_sub "snow" dl then { s with cold := s.cold + 0.5 } else s
  else s

/-- The wind special case of `_categorize_weather`. -/
def apply_wind (dl : String) (temperature : ℚ) (s : WeatherScores) : WeatherScores :=
  if wind_terms.any (fun t => is_sub t dl) then
    let s := { s with windy := s.windy + 0.8 }
    if temperature < 15 then { s with cold := s.cold + 0.3 } else s
  else s

/-- The clamp to a minimum of 0 applied to every weather score. -/
def clamp_weather (s : WeatherScores) : WeatherScores :=
  ⟨max 0 s.hot, max 0 s.cold, max 0 s.wet, max 0 s.windy, max 0 s.mild⟩

/-- Embedding of `_categorize_weather`: keyword scores, temperature bands,
precipitation and wind special cases, clamping, and normalization (with the
default of mild 1.0 when the total score is 0). -/
def categorize_weather (weather_description : String) (temperature : ℚ) : WeatherScores :=
  let dl := lowerStr weather_description
  let s := weather_keyword_scores dl
  let s := apply_temperature temperature s
  let s := apply_precipitation dl s
  let s := apply_wind dl temperature s
  let s := clamp_weather s
  if s.total > 0 then
    ⟨s.hot / s.total, s.cold / s.total, s.wet / s.total, s.windy / s.total, s.mild / s.total⟩
  else { s with mild := 1.0 }

/-- Each keyword score is a sum of nonnegative contributions. -/
theorem kw_score_nonneg (dl : String) (kws : List String) : 0 ≤ kw_score dl kws := by
  refine List.sum_nonneg ?_
  intro x hx
  simp only [kw_score, List.mem_map] at hx
  obtain ⟨p, _, rfl⟩ := hx
  split_ifs <;> norm_num

/-- After the temperature bands, every component is nonnegative and the three
temperature-fed components add up to at least 1; the wet and windy components
are unchanged. -/
theorem apply_temperature_bounds (t : ℚ) (s : WeatherScores)
    (h : 0 ≤ s.hot ∧ 0 ≤ s.cold ∧ 0 ≤ s.wet ∧ 0 ≤ s.windy ∧ 0 ≤ s.mild) :
    (0 ≤ (apply_temperature t s).hot ∧ 0 ≤ (apply_temperature t s).cold ∧
     0 ≤ (apply_temperature t s).wet ∧ 0 ≤ (apply_temperature t s).windy ∧
     0 ≤ (apply_temperature t s).mild) ∧
    1 ≤ (apply_temperature t s).hot + (apply_temperature t s).cold + (apply_temperature t s).mild := by
  obtain ⟨h1, h2, h3, h4, h5⟩ := h
  unfold apply_temperature
  split_ifs <;> refine ⟨⟨?_, ?_, ?_, ?_, ?_⟩, ?_⟩ <;> dsimp only <;> linarith

/-- The precipitation step only adds nonnegative amounts to wet and cold. -/
theorem apply_precipitation_bounds (dl : String) (s : WeatherScores)
    (h : 0 ≤ s.hot ∧ 0 ≤ s.cold ∧ 0 ≤ s.wet ∧ 0 ≤ s.windy ∧ 0 ≤ s.mild)
    (h1 : 1 ≤ s.hot + s.cold + s.mild) :
    (0 ≤ (apply_precipitation dl s).hot ∧ 0 ≤ (apply_precipitation dl s).cold ∧
     0 ≤ (apply_precipitation dl s).wet ∧ 0 ≤ (apply_precipitation dl s).windy ∧
     0 ≤ (apply_precipitation dl s).mild) ∧
    1 ≤ (apply_precipitation dl s).hot + (apply_precipitation dl s).cold +
        (apply_precipitation dl s).mild := by
  obtain ⟨ha, hb, hc, hd, he⟩ := h
  unfold apply_precipitation
  split_ifs <;> refine ⟨⟨?_, ?_, ?_, ?_, ?_⟩, ?_⟩ <;> dsimp only <;> linarith

/-- The wind step only adds nonnegative amounts to windy and cold. -/
theorem apply_wind_bounds (dl : String) (t : ℚ) (s : WeatherScores)
    (h : 0 ≤ s.hot ∧ 0 ≤ s.cold ∧ 0 ≤ s.wet ∧ 0 ≤ s.windy ∧ 0 ≤ s.mild)
    (h1 : 1 ≤ s.hot + s.cold + s.mild) :
    (0 ≤ (apply_wind dl t s).hot ∧ 0 ≤ (apply_wind dl t s).cold ∧
     0 ≤ (apply_wind dl t s).wet ∧ 0 ≤ (apply_wind dl t s).windy ∧
     0 ≤ (apply_wind dl t s).mild) ∧
    1 ≤ (apply_wind dl t s).hot + (apply_wind dl t s).cold + (apply_wind dl t s).mild := by
  obtain ⟨ha, hb, hc, hd, he⟩ := h
  unfold apply_wind
  split_ifs <;> refine ⟨⟨?_, ?_, ?_, ?_, ?_⟩, ?_⟩ <;> dsimp only <;> linarith

/-- The clamped weather scores before normalization always have a total of at
least 1: the temperature band always contributes at least 1 across the hot,
cold and mild components, and nothing afterwards removes it. -/
theorem clamp_weather_total (weather_description : String) (t : ℚ) :
    1 ≤ (clamp_weather (apply_wind (lowerStr weather_description) t
      (apply_precipitation (lowerStr weather_description)
        (apply_temperature t (weather_keyword_scores (lowerStr weather_description)))))).total := by
  set dl := lowerStr weather_description
  have h0 : 0 ≤ (weather_keyword_scores dl).hot ∧ 0 ≤ (weather_keyword_scores dl).cold ∧
      0 ≤ (weather_keyword_scores dl).wet ∧ 0 ≤ (weather_keyword_scores dl).windy ∧
      0 ≤ (weather_keyword_scores dl).mild :=
    ⟨kw_score_nonneg dl _, kw_score_nonneg dl _, kw_score_nonneg dl _,
     kw_score_nonneg dl _, kw_score_nonneg dl _⟩
  have h1 := apply_temperature_bounds t _ h0
  have h2 := apply_precipitation_bounds dl _ h1.1 h1.2
  have h3 := apply_wind_bounds dl t _ h2.1 h2.2
  obtain ⟨⟨a1, a2, a3, a4, a5⟩, hsum⟩ := h3
  simp only [clamp_weather, WeatherScores.total]
  have m1 := le_max_left (0 : ℚ) (apply_wind dl t (apply_precipitation dl (apply_temperature t (weather_keyword_scores dl)))).hot
  have m2 := le_max_right (0 : ℚ) (apply_wind dl t (apply_precipitation dl (apply_temperature t (weather_keyword_scores dl)))).hot
  have m3 := le_max_right (0 : ℚ) (apply_wind dl t (apply_precipitation dl (apply_temperature t (weather_keyword_scores dl)))).cold
  have m4 := le_max_right (0 : ℚ) (apply_wind dl t (apply_precipitation dl (apply_temperature t (weather_keyword_scores dl)))).mild
  have m5 := le_max_left (0 : ℚ) (apply_wind dl t (apply_precipitation dl (apply_temperature t (weather_keyword_scores dl)))).wet
  have m6 := le_max_left (0 : ℚ) (apply_wind dl t (apply_precipitation dl (apply_temperature t (weather_keyword_scores dl)))).windy
  linarith

/-- The normalized weather profile always sums to exactly 1. -/
theorem categorize_weather_total (weather_description : String) (t : ℚ) :
    (categorize_weather weather_description t).total = 1 := by
  have htot := clamp_weather_total weather_description t
  simp only [categorize_weather]
  rw [if_pos (by linarith)]
  simp only [WeatherScores.total] at htot ⊢
  field_simp

/-- Occasion profile (`_calculate_occasion_score`). -/
structure OccasionScores where
  formality : ℚ
  social : ℚ
  professional : ℚ
  active : ℚ
  outdoor : ℚ
  evening : ℚ
deriving DecidableEq, Repr

/-- The `occasion_formality` dictionary, in insertion order; the profiling
loop takes the first key occurring in the occasion text. -/
def occasion_formality : List (String × ℚ) :=
  [("casual", 1), ("everyday", 2), ("lounging", 1), ("weekend", 2), ("home", 1),
   ("errands", 2), ("work", 5), ("office", 6), ("business", 7),
   ("business casual", 5), ("date", 6), ("party", 5), ("celebration", 6),
   ("ceremony", 8), ("formal", 8), ("wedding", 9), ("black tie", 10),
   ("interview", 8), ("presentation", 7), ("networking", 6), ("conference", 6),
   ("funeral", 9), ("graduation", 7), ("concert", 4), ("dinner", 6),
   ("brunch", 4), ("cocktail", 7)]

/-- The `social_terms` list. -/
def social_terms : List String :=
  ["party", "date", "wedding", "dinner", "celebration", "brunch", "cocktail", "reception"]

/-- The `professional_terms` list. -/
def professional_terms : List String :=
  ["work", "office", "business", "interview", "meeting", "conference", "presentation"]

/-- The `active_terms` list. -/
def active_terms : List String :=
  ["sports", "workout", "gym", "exercise", "hiking", "outdoor", "activity"]

/-- The `outdoor_terms` list. -/
def outdoor_terms : List String :=
  ["outdoor", "outside", "park", "garden", "beach", "hiking", "picnic"]

/-- The `evening_terms` list. -/
def evening_terms : List String :=
  ["evening", "night", "dinner", "cocktail", "party", "formal"]

/-- Embedding of `_calculate_occasion_score`: formality from the first
matching dictionary key (default 5.0), then the social check followed by the
professional check (the latter overwriting the former when both fire), then
the independent active, outdoor and evening checks. -/
def calculate_occasion_score (occasion : String) : OccasionScores :=
  let ol := lowerStr occasion
  let formality : ℚ :=
    match occasion_formality.find? (fun p => is_sub p.1 ol) with
    | some p => p.2
    | none => 5.0
  let s : OccasionScores := ⟨formality, 0.5, 0.5, 0.3, 0.5, 0.5⟩
  let s := if social_terms.any (fun t => is_sub t ol) then
    { s with social := 0.8, professional := 0.2 } else s
  let s := if professional_terms.any (fun t => is_sub t ol) then
    { s with professional := 0.8, social := 0.2 } else s
  let s := if active_terms.any (fun t => is_sub t ol) then { s with active := 0.8 } else s
  let s := if outdoor_terms.any (fun t => is_sub t ol) then { s with outdoor := 0.8 } else s
  if evening_terms.any (fun t => is_sub t ol) then { s with evening := 0.8 } else s

/-- Good and bad materials per weather category
(`material_weather_suitability`). -/
def hot_good_materials : List String := ["cotton", "linen", "silk", "rayon", "chambray"]

/-- Materials bad in hot weather. -/
def hot_bad_materials : List String := ["wool", "leather", "fleece", "velvet", "cashmere"]

/-- Materials good in cold weather. -/
def cold_good_materials : List String := ["wool", "cashmere", "fleece", "leather", "down", "fur", "sherpa"]

/-- Materials bad in cold weather. -/
def cold_bad_materials : List String := ["linen", "silk", "mesh", "chiffon"]

/-- Materials good in wet weather. -/
def wet_good_materials : List String := ["polyester", "nylon", "gore-tex", "vinyl", "leather", "wool"]

/-- Materials bad in wet weather. -/
def wet_bad_materials : List String := ["suede", "silk", "cotton", "velvet"]

/-- Materials good in windy weather. -/
def windy_good_materials : List String := ["leather", "denim", "wool", "polyester", "nylon"]

/-- Materials bad in windy weather. -/
def windy_bad_materials : List String := ["silk", "light cotton", "chiffon", "loose weave"]

/-- Embedding of `_calculate_weather_appropriateness`.  The season score sums,
over the five weather categories, the category weight times the fixed
weather-to-season mapping applied to the item seasonality; the material score
starts at 0.5 and every weather category with a detected good (bad) material
adds (subtracts) 0.3 times its weight; a wet weight above 0.5 adds the pattern
and footwear bonuses; the blend is 0.7 season to 0.3 material, clamped to the
unit interval. -/
def calculate_weather_appropriateness (seasonality : Seasonality)
    (material_names : List String) (pattern : String) (category : Category)
    (type_names : List String) (w : WeatherScores) : ℚ :=
  let weather_score : ℚ :=
    w.hot * (0.8 * seasonality.summer + 0.2 * seasonality.spring) +
    w.cold * (0.8 * seasonality.winter + 0.2 * seasonality.fall) +
    w.wet * (0.4 * seasonality.fall + 0.4 * seasonality.spring + 0.2 * seasonality.winter) +
    w.windy * (0.5 * seasonality.fall + 0.3 * seasonality.spring + 0.2 * seasonality.winter) +
    w.mild * (0.5 * seasonality.spring + 0.3 * seasonality.fall + 0.2 * seasonality.summer)
  let material_score : ℚ := 0.5
  let material_score := material_score +
    (if material_names.any (fun m => hot_good_materials.contains m) then w.hot * 0.3 else 0) -
    (if material_names.any (fun m => hot_bad_materials.contains m) then w.hot * 0.3 else 0)
  let material_score := material_score +
    (if material_names.any (fun m => cold_good_materials.contains m) then w.cold * 0.3 else 0) -
    (if material_names.any (fun m => cold_bad_materials.contains m) then w.cold * 0.3 else 0)
  let material_score := material_score +
    (if material_names.any (fun m => wet_good_materials.contains m) then w.wet * 0.3 else 0) -
    (if material_names.any (fun m => wet_bad_materials.contains m) then w.wet * 0.3 else 0)
  let material_score := material_score +
    (if material_names.any (fun m => windy_good_materials.contains m) then w.windy * 0.3 else 0) -
    (if material_names.any (fun m => windy_bad_materials.contains m) then w.windy * 0.3 else 0)
  let weather_score := if w.wet > 0.5 then
    let weather_score := if ["dark", "patterned", "print", "plaid"].contains pattern then
      weather_score + 0.1 else weather_score
    if category = Category.footwear ∧
        (["boots", "waterproof", "water-resistant"].any
          (fun t => is_sub t (String.intercalate " " type_names))) then
      weather_score + 0.2
    else weather_score
    else weather_score
  min 1.0 (max 0.0 (weather_score * 0.7 + material_score * 0.3))

/-- Embedding of `_calculate_formality_match`: distance-based score with a
higher penalty for underdressing, a 20 percent discount for slight
overdressing, a 1.5 multiplier for extreme mismatch, clamping to the unit
interval and the near-perfect-match bonus. -/
def calculate_formality_match (item_formality occasion_formality : ℚ) : ℚ :=
  let diff := |item_formality - occasion_formality|
  let penalty : ℚ :=
    if item_formality < occasion_formality then 1.5 * diff
    else if diff < 2 then (0.8 * diff) * 0.8
    else 0.8 * diff
  let penalty := if diff > 5 then penalty * 1.5 else penalty
  let score := max 0 (1 - penalty / 10)
  if diff < 0.5 then min 1.0 (score + 0.2) else score

/-- One scored wardrobe row of the dataframe built by `suggest_outfit`:
the original dataframe index, the raw description, the resolved category and
the combined overall score. -/
structure ScoredItem where
  idx : ℕ
  description : String
  category : Category
  overall_score : ℚ
deriving DecidableEq, Repr

/-- The sort order of `sort_values(['category', 'overall_score'],
ascending=[True, False])`: category string ascending, then overall score
descending. -/
def sort_le (a b : ScoredItem) : Bool :=
  decide (a.category.sortKey < b.category.sortKey ∨
    (a.category.sortKey = b.category.sortKey ∧ b.overall_score ≤ a.overall_score))

/-- The dataframe sort: a stable sort under `sort_le` (pandas uses
`numpy.lexsort`, an indirect stable sort, for a multi-column key). -/
def sort_scored (items : List ScoredItem) : List ScoredItem :=
  items.mergeSort sort_le

/-- Selecting from one category partition of the sorted dataframe:
`clothing_df[clothing_df['category'] == c].iloc[0]` when the partition is
non-empty. -/
def best_in_category (l : List ScoredItem) (c : Category) : Option ScoredItem :=
  (l.filter (fun i => i.category == c)).head?

/-- The outfit dictionary returned by `suggest_outfit`: one optional slot per
category, a slot being present exactly when the dictionary holds its key. -/
structure Outfit where
  one_piece : Option String
  top : Option String
  bottom : Option String
  outerwear : Option String
  footwear : Option String
  accessory : Option String
deriving DecidableEq, Repr

/-- The placeholder string recorded for an empty required category. -/
def placeholder (c : Category) : String := "No suitable " ++ c.slotName ++ " found"

/-- Embedding of the selection phase of `suggest_outfit` (after scoring): the
one-piece override when its best item scores above 0.7 (removing top and
bottom from the required set), the required categories with placeholders for
empty partitions, and the optional categories above 0.6 with the additional
weather condition for outerwear. -/
def select_outfit (items : List ScoredItem) (temperature : ℚ) (w : WeatherScores) : Outfit :=
  let sorted := sort_scored items
  let one_piece_pick : Option ScoredItem :=
    match best_in_category sorted Category.one_piece with
    | some it => if it.overall_score > 0.7 then some it else none
    | none => none
  let required_slot : Category → String := fun c =>
    match best_in_category sorted c with
    | some it => it.description
    | none => placeholder c
  let optional_pick : Category → Option ScoredItem := fun c =>
    match best_in_category sorted c with
    | some it => if it.overall_score > 0.6 then some it else none
    | none => none
  { one_piece := one_piece_pick.map ScoredItem.description
    top := if one_piece_pick.isSome then none else some (required_slot Category.top)
    bottom := if one_piece_pick.isSome then none else some (required_slot Category.bottom)
    outerwear :=
      match optional_pick Category.outerwear with
      | some it =>
        if temperature < 20 ∨ w.wet > 0.4 ∨ w.windy > 0.4 then some it.description else none
      | none => none
    footwear := some (required_slot Category.footwear)
    accessory := (optional_pick Category.accessory).map ScoredItem.description }

/-- Scoring of one wardrobe row: feature extraction followed by the weather
and formality scores and the fixed 0.4 and 0.6 blend of `suggest_outfit`. -/
def score_item (idx : ℕ) (description : String) (w : WeatherScores)
    (occ : OccasionScores) : ScoredItem :=
  let material_names := detect_vocab description material_vocab
  let type_names := detect_vocab description type_vocab
  let category := determine_category description type_names
  let formality := calculate_formality description material_names type_names
  let seasonality := determine_seasonality description material_names type_names
  let pattern := extract_pattern description
  let weather_score :=
    calculate_weather_appropriateness seasonality material_names pattern category type_names w
  let formality_score := calculate_formality_match formality occ.formality
  ⟨idx, description, category, weather_score * 0.4 + formality_score * 0.6⟩

/-- Embedding of `suggest_outfit`: classify the weather, profile the occasion,
score every description (dataframe rows indexed in input order) and run the
selection phase. -/
def suggest_outfit (clothing_descriptions : List String) (occasion : String)
    (weather_description : String) (temperature : ℚ) : Outfit :=
  let w := categorize_weather weather_description temperature
  let occ := calculate_occasion_score occasion
  let items := clothing_descriptions.enum.map (fun p => score_item p.1 p.2 w occ)
  select_outfit items temperature w

/-! ## Claim theorems -/

/-- C1 (amended): for every description (and any detected material and type
lists), every season value of the returned seasonality is at least 0.05, and
the four values sum to at least 1.0 — not exactly 1.0, because the 0.05 floor
is applied after the division by the total and nothing renormalizes. -/
theorem seasonality_floor_and_total (description : String) (materials types : List String) :
    (0.05 ≤ (determine_seasonality description materials types).spring ∧
     0.05 ≤ (determine_seasonality description materials types).summer ∧
     0.05 ≤ (determine_seasonality description materials types).fall ∧
     0.05 ≤ (determine_seasonality description materials types).winter) ∧
    1 ≤ (determine_seasonality description materials types).total := by
  have ht := season_raw_total description materials types
  rcases hsr : season_raw description materials types with ⟨a, b, c, d⟩
  rw [hsr] at ht
  simp only [determine_seasonality, hsr, Seasonality.total] at ht ⊢
  have hT : (0 : ℚ) < a + b + c + d := lt_of_lt_of_le zero_lt_one ht
  refine ⟨⟨le_max_left _ _, le_max_left _ _, le_max_left _ _, le_max_left _ _⟩, ?_⟩
  have m1 := le_max_right (0.05 : ℚ) (a / (a + b + c + d))
  have m2 := le_max_right (0.05 : ℚ) (b / (a + b + c + d))
  have m3 := le_max_right (0.05 : ℚ) (c / (a + b + c + d))
  have m4 := le_max_right (0.05 : ℚ) (d / (a + b + c + d))
  have hsum : a / (a + b + c + d) + b / (a + b + c + d) + c / (a + b + c + d) +
      d / (a + b + c + d) = 1 := by
    rw [div_add_div_same, div_add_div_same, div_add_div_same]
    exact div_self (ne_of_gt hT)
  linarith

attribute [local semireducible] Rat.add Rat.mul Rat.inv Rat.sub Rat.ofScientific in
/-- C1 counterexample: on the description of a winter garment the four
normalized seasonality values sum to 43/28, far outside the claimed 1e-6
tolerance around 1.0 (the summer value was clamped up to the 0.05 floor after
normalization). -/
theorem seasonality_sum_counterexample :
    ¬ (|(determine_seasonality "warm thick cozy wool fleece winter sweater coat boots scarf"
        (detect_vocab "warm thick cozy wool fleece winter sweater coat boots scarf" material_vocab)
        (detect_vocab "warm thick cozy wool fleece winter sweater coat boots scarf" type_vocab)).total
        - 1| ≤ 1 / 1000000) := by decide

attribute [local semireducible] Rat.add Rat.mul Rat.inv Rat.sub Rat.ofScientific in
/-- C2 (amended): the weather profile sums to exactly 1 for every description
and temperature, but the profile for the empty description at 15 degrees is
cold 0.4 and mild 0.6 (the band above 10 degrees fires), not mild 1.0; the
mild-1.0 default would require a zero total, which the temperature bands
prevent. -/
theorem weather_profile_sum_and_example :
    (∀ (d : String) (t : ℚ), (categorize_weather d t).total = 1) ∧
    categorize_weather "" 15 = ⟨0, 0.4, 0, 0, 0.6⟩ :=
  ⟨categorize_weather_total, by decide⟩

attribute [local semireducible] Rat.add Rat.mul Rat.inv Rat.sub Rat.ofScientific in
/-- C2 counterexample: at the claimed no-signal input (empty description,
temperature 15) the profile is not the claimed mild-only profile. -/
theorem weather_default_counterexample :
    categorize_weather "" 15 ≠ ⟨0, 0, 0, 0, 1.0⟩ := by decide

/-- Closed form of the formality match for an underdressed item. -/
theorem cfm_under (i o : ℚ) (h : i < o) :
    calculate_formality_match i o =
      if o - i < 0.5 then 1
      else if o - i > 5 then max 0 (1 - 0.225 * (o - i))
      else max 0 (1 - 0.15 * (o - i)) := by
  have habs : |i - o| = o - i := by
    rw [abs_sub_comm]; exact abs_of_pos (by linarith)
  simp only [calculate_formality_match, habs]
  rw [if_pos h]
  split_ifs <;>
    first
      | (rw [max_eq_right (by linarith), min_eq_left (by linarith)]; norm_num)
      | (exfalso; linarith)
      | (congr 1; ring1)

/-- Closed form of the formality match for an item at or above the occasion
formality. -/
theorem cfm_over (i o : ℚ) (h : o ≤ i) :
    calculate_formality_match i o =
      if i - o < 0.5 then 1
      else if i - o > 5 then max 0 (1 - 0.12 * (i - o))
      else if i - o < 2 then max 0 (1 - 0.064 * (i - o))
      else max 0 (1 - 0.08 * (i - o)) := by
  have habs : |i - o| = i - o := abs_of_nonneg (by linarith)
  simp only [calculate_formality_match, habs]
  rw [if_neg (not_lt.mpr h)]
  split_ifs <;>
    first
      | (rw [max_eq_right (by linarith), min_eq_left (by linarith)]; norm_num)
      | (exfalso; linarith)
      | (congr 1; ring1)

/-- C3: the formality match score is non-increasing in the formality distance
on the underdressed side and on the overdressed side, an underdressed item
never beats an overdressed item at equal distance, and in particular item
formality 3 scores strictly below item formality 9 against occasion
formality 6. -/
theorem formality_match_monotone_asymmetric :
    (∀ o i1 i2 : ℚ, i1 ≤ i2 → i2 < o →
      calculate_formality_match i1 o ≤ calculate_formality_match i2 o) ∧
    (∀ o i1 i2 : ℚ, o ≤ i1 → i1 ≤ i2 →
      calculate_formality_match i2 o ≤ calculate_formality_match i1 o) ∧
    (∀ o d : ℚ, 0 < d →
      calculate_formality_match (o - d) o ≤ calculate_formality_match (o + d) o) ∧
    calculate_formality_match 3 6 < calculate_formality_match 9 6 := by
  refine ⟨?_, ?_, ?_, ?_⟩
  · intro o i1 i2 h12 h2o
    rw [cfm_under i1 o (by linarith), cfm_under i2 o h2o]
    split_ifs <;>
      first
        | exact le_refl _
        | exact max_le_max le_rfl (by linarith)
        | exact max_le (by norm_num) (by linarith)
        | linarith
  · intro o i1 i2 ho1 h12
    rw [cfm_over i1 o ho1, cfm_over i2 o (by linarith)]
    split_ifs <;>
      first
        | exact le_refl _
        | exact max_le_max le_rfl (by linarith)
        | exact max_le (by norm_num) (by linarith)
        | linarith
  · intro o d hd
    rw [cfm_under (o - d) o (by linarith), cfm_over (o + d) o (by linarith)]
    simp only [show o - (o - d) = d by ring, show o + d - o = d by ring]
    split_ifs <;>
      first
        | exact le_refl _
        | exact max_le_max le_rfl (by linarith)
        | exact max_le (by norm_num) (by linarith)
        | linarith
  · rw [cfm_under 3 6 (by norm_num), cfm_over 9 6 (by norm_num)]
    rw [if_neg (by norm_num : ¬((6 : ℚ) - 3 < 0.5)), if_neg (by norm_num : ¬((6 : ℚ) - 3 > 5)),
        if_neg (by norm_num : ¬((9 : ℚ) - 6 < 0.5)), if_neg (by norm_num : ¬((9 : ℚ) - 6 > 5)),
        if_neg (by norm_num : ¬((9 : ℚ) - 6 < 2))]
    rw [max_eq_right (by norm_num), max_eq_right (by norm_num)]
    norm_num

/-- Witness for C3: the three quantified parts applied at concrete formality
values with their hypotheses discharged. -/
theorem formality_match_monotone_asymmetric_witness :
    calculate_formality_match 1 6 ≤ calculate_formality_match 2 6 ∧
    calculate_formality_match 8 6 ≤ calculate_formality_match 7 6 ∧
    calculate_formality_match (6 - 1) 6 ≤ calculate_formality_match (6 + 1) 6 :=
  ⟨formality_match_monotone_asymmetric.1 6 1 2 (by norm_num) (by norm_num),
   formality_match_monotone_asymmetric.2.1 6 7 8 (by norm_num) (by norm_num),
   formality_match_monotone_asymmetric.2.2.1 6 1 (by norm_num)⟩

/-- C9: outfit suggestion is a pure function of its four arguments — two
calls with identical wardrobe, occasion, weather description and temperature
return identical outfits (the embedded pipeline has no random or clock
input). -/
theorem suggest_outfit_deterministic (cds1 cds2 : List String) (occ1 occ2 wd1 wd2 : String)
    (t1 t2 : ℚ) (h1 : cds1 = cds2) (h2 : occ1 = occ2) (h3 : wd1 = wd2) (h4 : t1 = t2) :
    suggest_outfit cds1 occ1 wd1 t1 = suggest_outfit cds2 occ2 wd2 t2 := by
  rw [h1, h2, h3, h4]

/-- Witness for C9 at a concrete argument tuple. -/
theorem suggest_outfit_deterministic_witness :
    suggest_outfit ["silk blouse"] "work" "rain" 12 =
      suggest_outfit ["silk blouse"] "work" "rain" 12 :=
  suggest_outfit_deterministic _ _ _ _ _ _ _ _ rfl rfl rfl rfl

/-- C10: when the occasion text contains both a social term and a
professional term, the professional check runs second and overwrites the
social assignment, leaving professional 0.8 and social 0.2. -/
theorem occasion_social_professional_overwrite (occasion : String)
    (hs : social_terms.any (fun t => is_sub t (lowerStr occasion)) = true)
    (hp : professional_terms.any (fun t => is_sub t (lowerStr occasion)) = true) :
    (calculate_occasion_score occasion).professional = 0.8 ∧
    (calculate_occasion_score occasion).social = 0.2 := by
  simp only [calculate_occasion_score, hs, hp, if_true]
  split_ifs <;> exact ⟨rfl, rfl⟩

/-- Witness for C10: the occasion text "dinner meeting" contains the social
term dinner and the professional term meeting. -/
theorem occasion_social_professional_overwrite_witness :
    social_terms.any (fun t => is_sub t (lowerStr "dinner meeting")) = true ∧
    professional_terms.any (fun t => is_sub t (lowerStr "dinner meeting")) = true ∧
    (calculate_occasion_score "dinner meeting").professional = 0.8 ∧
    (calculate_occasion_score "dinner meeting").social = 0.2 :=
  ⟨by decide, by decide,
   (occasion_social_professional_overwrite "dinner meeting" (by decide) (by decide)).1,
   (occasion_social_professional_overwrite "dinner meeting" (by decide) (by decide)).2⟩

/-- C4: the resulting outfit holds the one-piece slot exactly when the
top-scoring one-piece item exists and its overall score is strictly above 0.7;
in that case the top and bottom slots are absent, and the one-piece slot is
never present together with a top or bottom slot. -/
theorem one_piece_slot_iff (items : List ScoredItem) (t : ℚ) (w : WeatherScores) :
    ((select_outfit items t w).one_piece.isSome ↔
      ∃ it, best_in_category (sort_scored items) Category.one_piece = some it ∧
        it.overall_score > 0.7) ∧
    ((select_outfit items t w).one_piece.isSome →
      (select_outfit items t w).top = none ∧ (select_outfit items t w).bottom = none) ∧
    ¬ ((select_outfit items t w).one_piece.isSome ∧
       ((select_outfit items t w).top.isSome ∨ (select_outfit items t w).bottom.isSome)) := by
  cases hb : best_in_category (sort_scored items) Category.one_piece with
  | none =>
    simp [select_outfit, hb]
  | some it =>
    by_cases hsc : it.overall_score > 0.7
    · simp [select_outfit, hb, hsc]
    · simp [select_outfit, hb, hsc]

/-- Stable sort of a one-element list. -/
theorem sort_scored_singleton (x : ScoredItem) : sort_scored [x] = [x] :=
  List.mergeSort_of_sorted (List.pairwise_singleton _ _)

attribute [local semireducible] Rat.add Rat.mul Rat.inv Rat.sub Rat.ofScientific in
/-- C5 (amended): the outerwear slot is present exactly when the outerwear
partition has a top item scoring strictly above 0.6 and the conditions warrant
it (temperature below 20, or wet above 0.4, or windy above 0.4); the
single-coat example holds at temperature 5 for an occasion of default
formality 5 such as the empty occasion string (but not for every occasion:
see the counterexample). -/
theorem outerwear_condition_and_example :
    (∀ (items : List ScoredItem) (t : ℚ) (w : WeatherScores),
      (select_outfit items t w).outerwear.isSome ↔
        ∃ it, best_in_category (sort_scored items) Category.outerwear = some it ∧
          it.overall_score > 0.6 ∧ (t < 20 ∨ w.wet > 0.4 ∨ w.windy > 0.4)) ∧
    suggest_outfit ["heavy wool winter coat"] "" "" 5 =
      ⟨none, some "No suitable top found", some "No suitable bottom found",
       some "heavy wool winter coat", some "No suitable footwear found", none⟩ := by
  constructor
  · intro items t w
    cases hb : best_in_category (sort_scored items) Category.outerwear with
    | none => simp [select_outfit, hb]
    | some it =>
      by_cases hsc : it.overall_score > 0.6
      · by_cases hcond : t < 20 ∨ w.wet > 0.4 ∨ w.windy > 0.4
        · simp [select_outfit, hb, hsc, hcond]
        · simp [select_outfit, hb, hsc, hcond]
      · simp [select_outfit, hb, hsc]
  · simp only [suggest_outfit, List.enum, List.enumFrom, List.map, select_outfit,
      sort_scored_singleton]
    decide

attribute [local semireducible] Rat.add Rat.mul Rat.inv Rat.sub Rat.ofScientific in
/-- C5 counterexample: the claim's single-coat example leaves the occasion
arbitrary, but with occasion casual (formality 1) the heavily overdressed coat
scores below 0.6 and the outerwear slot is omitted even though the temperature
condition holds. -/
theorem outerwear_occasion_counterexample :
    (suggest_outfit ["heavy wool winter coat"] "casual" "" 5).outerwear = none := by
  simp only [suggest_outfit, List.enum, List.enumFrom, List.map, select_outfit,
    sort_scored_singleton]
  decide

/-- The sort order is total. -/
theorem sort_le_total' : ∀ a b : ScoredItem, (sort_le a b || sort_le b a) = true := by
  intro a b
  simp only [sort_le, Bool.or_eq_true, decide_eq_true_eq]
  rcases lt_trichotomy a.category.sortKey b.category.sortKey with h | h | h
  · exact Or.inl (Or.inl h)
  · rcases le_total b.overall_score a.overall_score with hs | hs
    · exact Or.inl (Or.inr ⟨h, hs⟩)
    · exact Or.inr (Or.inr ⟨h.symm, hs⟩)
  · exact Or.inr (Or.inl h)

/-- The sort order is transitive. -/
theorem sort_le_trans' : ∀ a b c : ScoredItem,
    sort_le a b = true → sort_le b c = true → sort_le a c = true := by
  intro a b c hab hbc
  simp only [sort_le, decide_eq_true_eq] at hab hbc ⊢
  rcases hab with h1 | ⟨h1, h1'⟩ <;> rcases hbc with h2 | ⟨h2, h2'⟩
  · exact Or.inl (lt_trans h1 h2)
  · exact Or.inl (h2 ▸ h1)
  · exact Or.inl (h1 ▸ h2)
  · exact Or.inr ⟨h1.trans h2, le_trans h2' h1'⟩

/-- In a list with strictly increasing indices, any two members with ordered
indices form a two-element sublist in that order. -/
theorem pairwise_pair_sublist {l : List ScoredItem}
    (h : l.Pairwise (fun a b => a.idx < b.idx)) {a b : ScoredItem}
    (ha : a ∈ l) (hb : b ∈ l) (hab : a.idx < b.idx) : List.Sublist [a, b] l := by
  induction l with
  | nil => cases ha
  | cons x t ih =>
    rcases List.pairwise_cons.mp h with ⟨hx, ht⟩
    rcases List.mem_cons.mp ha with rfl | ha'
    · rcases List.mem_cons.mp hb with heq | hb'
      · rw [heq] at hab
        exact absurd hab (lt_irrefl _)
      · exact (List.singleton_sublist.mpr hb').cons₂ _
    · rcases List.mem_cons.mp hb with heq | hb'
      · rw [heq] at hab
        exact absurd (lt_trans hab (hx a ha')) (lt_irrefl _)
      · exact (ih ht ha' hb').cons _

/-- C6: for any scored input with strictly increasing dataframe indices, the
item selected for a category (the head of that category's partition of the
stably sorted dataframe) is a member of the input from that category whose
overall score no other item of the category exceeds, and whose index is
smallest among equal-scoring items of the category — ties are broken by
original input order. -/
theorem tie_break_earliest (items : List ScoredItem)
    (hidx : items.Pairwise (fun a b => a.idx < b.idx))
    (c : Category) (x : ScoredItem)
    (hx : best_in_category (sort_scored items) c = some x) :
    x ∈ items ∧ x.category = c ∧
    ∀ y ∈ items, y.category = c →
      y.overall_score ≤ x.overall_score ∧
      (y.overall_score = x.overall_score → x.idx ≤ y.idx) := by
  have hperm := List.mergeSort_perm items sort_le
  have hsorted := List.sorted_mergeSort sort_le_trans' sort_le_total' items
  simp only [best_in_category, sort_scored] at hx
  obtain ⟨rest, hrest⟩ : ∃ rest,
      (items.mergeSort sort_le).filter (fun i => i.category == c) = x :: rest := by
    cases hf : (items.mergeSort sort_le).filter (fun i => i.category == c) with
    | nil => rw [hf] at hx; cases hx
    | cons a rest =>
      rw [hf] at hx
      simp only [List.head?_cons, Option.some.injEq] at hx
      exact ⟨rest, by rw [hx]⟩
  have hxf : x ∈ (items.mergeSort sort_le).filter (fun i => i.category == c) := by
    rw [hrest]; exact List.mem_cons_self _ _
  have hxs : x ∈ items.mergeSort sort_le := List.mem_of_mem_filter hxf
  have hxitems : x ∈ items := hperm.subset hxs
  have hxc : x.category = c := by
    have := List.of_mem_filter hxf
    simpa using this
  have hnditems : items.Nodup :=
    hidx.imp (fun {a b} hlt => fun he => absurd (he ▸ hlt) (lt_irrefl _))
  have hnds : (items.mergeSort sort_le).Nodup := hperm.nodup_iff.mpr hnditems
  have hndf : (x :: rest).Nodup := by
    rw [← hrest]; exact hnds.filter _
  refine ⟨hxitems, hxc, ?_⟩
  intro y hy hyc
  have hys : y ∈ items.mergeSort sort_le := hperm.mem_iff.mpr hy
  have hyf : y ∈ (items.mergeSort sort_le).filter (fun i => i.category == c) :=
    List.mem_filter.mpr ⟨hys, by simp [hyc]⟩
  have hpf : ((items.mergeSort sort_le).filter
      (fun i => i.category == c)).Pairwise (fun a b => sort_le a b = true) :=
    List.Pairwise.sublist (List.filter_sublist _) hsorted
  rw [hrest] at hyf hpf
  rcases List.mem_cons.mp hyf with rfl | hyr
  · exact ⟨le_refl _, fun _ => le_refl _⟩
  · have hle : sort_le x y = true := (List.pairwise_cons.mp hpf).1 y hyr
    have hsc : y.overall_score ≤ x.overall_score := by
      simp only [sort_le, decide_eq_true_eq] at hle
      rcases hle with h | ⟨_, h⟩
      · rw [hxc, hyc] at h
        exact absurd h (lt_irrefl _)
      · exact h
    refine ⟨hsc, ?_⟩
    intro heq
    by_contra hgt
    push_neg at hgt
    have hxy : x ≠ y := by
      intro h
      rw [h] at hgt
      exact absurd hgt (lt_irrefl _)
    have hsub : List.Sublist [y, x] items := pairwise_pair_sublist hidx hy hxitems hgt
    have hleyx : sort_le y x = true := by
      simp only [sort_le, decide_eq_true_eq]
      exact Or.inr ⟨by rw [hxc, hyc], le_of_eq heq.symm⟩
    have hstable : List.Sublist [y, x] (items.mergeSort sort_le) :=
      List.mergeSort_stable_pair sort_le_trans' sort_le_total' hleyx hsub
    have hsubf : List.Sublist [y, x] (x :: rest) := by
      have hf := List.Sublist.filter (fun i => i.category == c) hstable
      rw [show List.filter (fun i => i.category == c) [y, x] = [y, x] from by
        simp [hxc, hyc], hrest] at hf
      exact hf
    have hxrest : x ∈ rest := by
      cases hsubf with
      | cons _ h => exact h.subset (by simp)
      | cons₂ _ h => exact h.subset (by simp)
    exact absurd hxrest (List.nodup_cons.mp hndf).1

attribute [local semireducible] Rat.add Rat.mul Rat.inv Rat.sub Rat.ofScientific in
/-- Witness for C6: two equally scored tops in input order; the earlier one
(index 0) is selected, and the instantiated conclusion for the later one says
its score does not exceed the winner's and the winner's index is smaller. -/
theorem tie_break_earliest_witness :
    ([⟨0, "black tee", Category.top, 1/2⟩, ⟨1, "white tee", Category.top, 1/2⟩] :
        List ScoredItem).Pairwise (fun a b => a.idx < b.idx) ∧
    best_in_category (sort_scored
      [⟨0, "black tee", Category.top, 1/2⟩, ⟨1, "white tee", Category.top, 1/2⟩])
      Category.top = some ⟨0, "black tee", Category.top, 1/2⟩ ∧
    ((⟨1, "white tee", Category.top, 1/2⟩ : ScoredItem).overall_score ≤
      (⟨0, "black tee", Category.top, 1/2⟩ : ScoredItem).overall_score ∧
     ((⟨1, "white tee", Category.top, 1/2⟩ : ScoredItem).overall_score =
        (⟨0, "black tee", Category.top, 1/2⟩ : ScoredItem).overall_score →
      (⟨0, "black tee", Category.top, 1/2⟩ : ScoredItem).idx ≤
        (⟨1, "white tee", Category.top, 1/2⟩ : ScoredItem).idx)) := by
  have hpair : ([⟨0, "black tee", Category.top, 1/2⟩,
      ⟨1, "white tee", Category.top, 1/2⟩] : List ScoredItem).Pairwise
      (fun a b => a.idx < b.idx) := by decide
  have hsort : sort_scored [⟨0, "black tee", Category.top, 1/2⟩,
      ⟨1, "white tee", Category.top, 1/2⟩] =
      [⟨0, "black tee", Category.top, 1/2⟩, ⟨1, "white tee", Category.top, 1/2⟩] :=
    List.mergeSort_of_sorted (by decide)
  have hbest : best_in_category (sort_scored
      [⟨0, "black tee", Category.top, 1/2⟩, ⟨1, "white tee", Category.top, 1/2⟩])
      Category.top = some ⟨0, "black tee", Category.top, 1/2⟩ := by
    rw [hsort]; decide
  exact ⟨hpair, hbest,
    (tie_break_earliest _ hpair Category.top _ hbest).2.2
      ⟨1, "white tee", Category.top, 1/2⟩ (by decide) rfl⟩

/-- Combined keyword recognizer: some color, material or clothing-type
vocabulary entry is detected as a token, or some category-table term occurs in
the description or inside one of its words, or some formality table key,
formality adjective, pattern keyword or fit keyword occurs in the description.
A description for which this is false matches no recognized keyword and no
other modifier of the four extraction results below. -/
def has_any_keyword (description : String) : Bool :=
  let dl := lowerStr description
  color_vocab.any (fun w => (words dl).contains w) ||
  material_vocab.any (fun w => (words dl).contains w) ||
  type_vocab.any (fun w => (words dl).contains w) ||
  all_category_terms.any (fun t => is_sub t dl || (words dl).any (fun w => is_sub t w)) ||
  formal_materials.any (fun p => is_sub p.1 dl) ||
  casual_materials.any (fun p => is_sub p.1 dl) ||
  formal_types.any (fun p => is_sub p.1 dl) ||
  casual_types.any (fun p => is_sub p.1 dl) ||
  formality_descriptors.any (fun p => is_sub p.1 dl) ||
  casual_descriptors.any (fun p => is_sub p.1 dl) ||
  formal_adj.any (fun a => is_sub a dl) ||
  casual_adj.any (fun a => is_sub a dl) ||
  (patterns_table.flatMap Prod.snd).any (fun k => is_sub k dl) ||
  (fits_table.flatMap Prod.snd).any (fun k => is_sub k dl)

/-- A weight-table fold leaves the accumulator unchanged when no key tests
positively. -/
theorem add_weights_no_hits (test : String → Bool) (table : List (String × ℚ)) (acc : ℚ)
    (h : ∀ p ∈ table, test p.1 = false) : add_weights test table acc = acc := by
  induction table generalizing acc with
  | nil => rfl
  | cons p t ih =>
    simp only [add_weights, List.foldl_cons]
    rw [if_neg (by simp [h p (List.mem_cons_self _ _)])]
    exact ih acc (fun q hq => h q (List.mem_cons_of_mem _ hq))

/-- An adjective-bump fold leaves the accumulator unchanged when no word tests
positively. -/
theorem adj_bump_no_hits (test : String → Bool) (ws : List String) (delta acc : ℚ)
    (h : ∀ w ∈ ws, test w = false) : adj_bump test ws delta acc = acc := by
  induction ws generalizing acc with
  | nil => rfl
  | cons w t ih =>
    simp only [adj_bump, List.foldl_cons]
    rw [if_neg (by simp [h w (List.mem_cons_self _ _)])]
    exact ih acc (fun q hq => h q (List.mem_cons_of_mem _ hq))

/-- C7: a description in which no color, material or type vocabulary entry and
no category, formality, pattern or fit keyword is recognized resolves to
category accessory, formality 5.0, pattern solid and fit regular. -/
theorem unmatched_keyword_defaults (description : String)
    (h : has_any_keyword description = false) :
    determine_category description (detect_vocab description type_vocab) = Category.accessory ∧
    calculate_formality description (detect_vocab description material_vocab)
      (detect_vocab description type_vocab) = 5 ∧
    extract_pattern description = "solid" ∧
    extract_fit description = "regular" := by
  simp only [has_any_keyword, Bool.or_eq_false_iff] at h
  obtain ⟨⟨⟨⟨⟨⟨⟨⟨⟨⟨⟨⟨⟨hcol, hmat⟩, hty⟩, hcat⟩, hfm⟩, hcm⟩, hft⟩, hct⟩, hfd⟩,
    hcd⟩, hfa⟩, hca⟩, hpat⟩, hfit⟩ := h
  have hmat0 : detect_vocab description material_vocab = [] := by
    simp only [detect_vocab, List.filter_eq_nil]
    exact List.any_eq_false.mp hmat
  have hty0 : detect_vocab description type_vocab = [] := by
    simp only [detect_vocab, List.filter_eq_nil]
    exact List.any_eq_false.mp hty
  have hcatsub : ∀ p ∈ category_mappings, ∀ t ∈ p.2, is_sub t (lowerStr description) = false := by
    intro p hp t ht
    have h1 := List.any_eq_false.mp hcat t (List.mem_flatMap.mpr ⟨p, hp, ht⟩)
    simp only [Bool.or_eq_true, not_or, Bool.not_eq_true] at h1
    exact h1.1
  have hcatword : ∀ p ∈ category_mappings, ∀ t ∈ p.2,
      ((words (lowerStr description)).any (fun w => is_sub t w)) = false := by
    intro p hp t ht
    have h1 := List.any_eq_false.mp hcat t (List.mem_flatMap.mpr ⟨p, hp, ht⟩)
    simp only [Bool.or_eq_true, not_or, Bool.not_eq_true] at h1
    exact h1.2
  refine ⟨?_, ?_, ?_, ?_⟩
  · simp only [determine_category, hty0]
    rw [List.find?_eq_none.mpr (by intro p hp; simp),
        List.find?_eq_none.mpr (by
          intro p hp
          simp only [Bool.not_eq_true, List.any_eq_false, Bool.not_eq_true]
          intro t ht
          simp [hcatsub p hp t ht]),
        List.find?_eq_none.mpr (by
          intro p hp
          simp only [Bool.not_eq_true, List.any_eq_false, Bool.not_eq_true]
          intro t ht w hw
          simpa using List.any_eq_false.mp (hcatword p hp t ht) w hw)]
  · simp only [calculate_formality, hmat0, hty0]
    rw [adj_bump_no_hits _ casual_adj _ _ (by
          intro w hw
          simpa using List.any_eq_false.mp hca w hw),
        adj_bump_no_hits _ formal_adj _ _ (by
          intro w hw
          simpa using List.any_eq_false.mp hfa w hw),
        add_weights_no_hits _ casual_descriptors _ (by
          intro p hp
          simpa using List.any_eq_false.mp hcd p hp),
        add_weights_no_hits _ formality_descriptors _ (by
          intro p hp
          simpa using List.any_eq_false.mp hfd p hp),
        add_weights_no_hits _ casual_types _ (by
          intro p hp
          rw [Bool.or_eq_false_iff]
          exact ⟨rfl, by simpa using List.any_eq_false.mp hct p hp⟩),
        add_weights_no_hits _ formal_types _ (by
          intro p hp
          rw [Bool.or_eq_false_iff]
          exact ⟨rfl, by simpa using List.any_eq_false.mp hft p hp⟩),
        add_weights_no_hits _ casual_materials _ (fun p _ => rfl),
        add_weights_no_hits _ formal_materials _ (fun p _ => rfl)]
    norm_num
  · simp only [extract_pattern]
    rw [List.find?_eq_none.mpr (by
      intro p hp
      simp only [Bool.not_eq_true, List.any_eq_false, Bool.not_eq_true]
      intro k hk
      simp [List.any_eq_false.mp hpat k (List.mem_flatMap.mpr ⟨p, hp, hk⟩)])]
  · simp only [extract_fit]
    rw [List.find?_eq_none.mpr (by
      intro p hp
      simp only [Bool.not_eq_true, List.any_eq_false, Bool.not_eq_true]
      intro k hk
      simp [List.any_eq_false.mp hfit k (List.mem_flatMap.mpr ⟨p, hp, hk⟩)])]

/-- Witness for C7: the description "zzz" matches nothing and yields all four
defaults. -/
theorem unmatched_keyword_defaults_witness :
    has_any_keyword "zzz" = false ∧
    (determine_category "zzz" (detect_vocab "zzz" type_vocab) = Category.accessory ∧
     calculate_formality "zzz" (detect_vocab "zzz" material_vocab)
       (detect_vocab "zzz" type_vocab) = 5 ∧
     extract_pattern "zzz" = "solid" ∧
     extract_fit "zzz" = "regular") :=
  ⟨by decide, unmatched_keyword_defaults "zzz" (by decide)⟩

/-- C8: for a non-empty scored wardrobe, when a required category has an empty
partition, the selection records the "No suitable ... found" placeholder in
that slot instead of failing; the embedded selection is a total function.  Top
and bottom are required only while the one-piece override does not fire (the
source removes them from the required set when it does), whereas footwear
stays required and receives its placeholder unconditionally. -/
theorem required_placeholder (items : List ScoredItem) (t : ℚ) (w : WeatherScores)
    (hne : items ≠ []) :
    ((∀ it, best_in_category (sort_scored items) Category.one_piece = some it →
        ¬ (it.overall_score > 0.7)) →
      (best_in_category (sort_scored items) Category.top = none →
        (select_outfit items t w).top = some (placeholder Category.top)) ∧
      (best_in_category (sort_scored items) Category.bottom = none →
        (select_outfit items t w).bottom = some (placeholder Category.bottom))) ∧
    (best_in_category (sort_scored items) Category.footwear = none →
      (select_outfit items t w).footwear = some (placeholder Category.footwear)) := by
  constructor
  · intro hop
    have hopnone : (match best_in_category (sort_scored items) Category.one_piece with
        | some it => if it.overall_score > 0.7 then some it else none
        | none => none) = (none : Option ScoredItem) := by
      cases hb : best_in_category (sort_scored items) Category.one_piece with
      | none => rfl
      | some it => simp [hop it hb]
    refine ⟨?_, ?_⟩ <;> intro hempty <;>
      simp [select_outfit, hopnone, hempty]
  · intro hempty
    simp [select_outfit, hempty]

attribute [local semireducible] Rat.add Rat.mul Rat.inv Rat.sub Rat.ofScientific in
/-- Witness for C8: a wardrobe holding a single accessory; the top, bottom and
footwear partitions are empty and all three slots carry placeholders. -/
theorem required_placeholder_witness :
    (([⟨0, "red scarf", Category.accessory, 1/2⟩] : List ScoredItem) ≠ []) ∧
    ((select_outfit [⟨0, "red scarf", Category.accessory, 1/2⟩] 22 ⟨0, 0, 0, 0, 1⟩).top =
        some (placeholder Category.top) ∧
     (select_outfit [⟨0, "red scarf", Category.accessory, 1/2⟩] 22 ⟨0, 0, 0, 0, 1⟩).bottom =
        some (placeholder Category.bottom) ∧
     (select_outfit [⟨0, "red scarf", Category.accessory, 1/2⟩] 22 ⟨0, 0, 0, 0, 1⟩).footwear =
        some (placeholder Category.footwear)) := by
  have hsort : sort_scored [⟨0, "red scarf", Category.accessory, 1/2⟩] =
      [⟨0, "red scarf", Category.accessory, 1/2⟩] := sort_scored_singleton _
  have hop : ∀ it, best_in_category (sort_scored [⟨0, "red scarf", Category.accessory, 1/2⟩])
      Category.one_piece = some it → ¬ (it.overall_score > 0.7) := by
    rw [hsort]
    intro it hit
    cases hit
  have h := required_placeholder [⟨0, "red scarf", Category.accessory, 1/2⟩] 22
    ⟨0, 0, 0, 0, 1⟩ (by simp)
  exact ⟨by simp, (h.1 hop).1 (by rw [hsort]; rfl), (h.1 hop).2 (by rw [hsort]; rfl),
    h.2 (by rw [hsort]; rfl)⟩

end OutfitSuggester
